import Mathlib

/-
Verification of the score_talk forum backend (FastAPI + SQLAlchemy).

The data model and the API handlers are shallowly embedded: each ORM table
becomes a list of rows inside a DB record, and each handler becomes a pure
function from the DB (plus request data) to a result together with the new DB.

Timestamp semantics, taken from app/models/models.py: every timestamp column
except Post.created_at is declared with a scalar default, namely the value of
datetime.now(UTC) evaluated once when the module is imported.  SQLAlchemy
treats a non-callable default as a constant applied to every inserted row, so
those columns always receive the same constant.  The DB record carries that
constant in the load_time field.  Post.created_at is declared with the
callable datetime.utcnow, which is evaluated per insert; the corresponding
embedding takes the current wall-clock time as an argument.
-/

namespace ScoreTalk

/-- Wall-clock instants are modelled as natural numbers. -/
abbrev Time := Nat

/-- Row of the User table (app/models/models.py). -/
structure User where
  user_id : Int
  username : String
  password_hash : String
  nickname : String
  role : String
  created_at : Time
deriving Repr, DecidableEq

/-- Row of the Topic table. -/
structure Topic where
  topic_id : Int
  name : String
  description : Option String
  created_at : Time
deriving Repr, DecidableEq

/-- Row of the Post table.  created_at comes from the per-insert callable
datetime.utcnow; updated_at has a scalar default and scalar onupdate, both
equal to the module-import constant. -/
structure Post where
  post_id : Int
  author_id : Int
  title : String
  content : String
  is_deleted : Bool
  created_at : Time
  updated_at : Time
deriving Repr, DecidableEq

/-- Row of the Comment table. -/
structure Comment where
  comment_id : Int
  post_id : Int
  author_id : Int
  content : String
  is_deleted : Bool
  created_at : Time
deriving Repr, DecidableEq

/-- Row of the Rating table.  The table carries a uniqueness constraint on
the pair (user_id, topic_id) and a check constraint on score. -/
structure Rating where
  rating_id : Int
  user_id : Int
  topic_id : Int
  score : Int
  comment : Option String
  created_at : Time
  updated_at : Time
deriving Repr, DecidableEq

/-- An HTTPException raised by a handler: status code plus detail string. -/
structure ApiError where
  status_code : Nat
  detail : String
deriving Repr, DecidableEq

/-- Equality of handler outcomes is decidable componentwise. -/
instance {ε α : Type} [DecidableEq ε] [DecidableEq α] : DecidableEq (Except ε α) :=
  fun a b =>
    match a, b with
    | .error x, .error y =>
      if h : x = y then .isTrue (by rw [h])
      else .isFalse (fun hc => h (Except.error.inj hc))
    | .error _, .ok _ => .isFalse (fun hc => Except.noConfusion hc)
    | .ok _, .error _ => .isFalse (fun hc => Except.noConfusion hc)
    | .ok x, .ok y =>
      if h : x = y then .isTrue (by rw [h])
      else .isFalse (fun hc => h (Except.ok.inj hc))

/-- The single 401 error object shared by all failure paths of
get_current_user (app/api/deps.py). -/
def credentials_exception : ApiError :=
  ⟨401, "Could not validate credentials"⟩

/-- The whole persistent state.  Tables are lists in physical insertion
order; the next-id fields model autoincrement primary keys; load_time is the
constant produced by evaluating datetime.now(UTC) at module import, used as
the scalar column default described above. -/
structure DB where
  load_time : Time
  users : List User
  topics : List Topic
  posts : List Post
  comments : List Comment
  ratings : List Rating
  next_user_id : Int
  next_topic_id : Int
  next_post_id : Int
  next_comment_id : Int
  next_rating_id : Int
deriving Repr, DecidableEq

/-- Request body of POST /auth/register (app/schemas/user.py, UserCreate).
The role field is Optional with default value the string user. -/
structure UserCreate where
  username : String
  nickname : String
  password : String
  role : Option String
deriving Repr, DecidableEq

/-- Request body of POST /topics (app/schemas/topic.py, TopicCreate). -/
structure TopicCreate where
  name : String
  description : Option String
deriving Repr, DecidableEq

/-- Request body of POST /topics/id/ratings (app/schemas/rating.py,
RatingCreate).  The schema validates score between 1 and 5. -/
structure RatingCreate where
  topic_id : Int
  score : Int
  comment : Option String
deriving Repr, DecidableEq

/-- Request body of POST /posts (app/schemas/post.py, PostCreate). -/
structure PostCreate where
  title : String
  content : String
deriving Repr, DecidableEq

/-- Request body of POST /posts/id/comments (app/schemas/comment.py). -/
structure CommentCreate where
  content : String
deriving Repr, DecidableEq

/-- Validated pagination query parameters (app/schemas/pagination.py). -/
structure PaginationParams where
  page : Nat
  per_page : Nat
deriving Repr, DecidableEq

/-- Response shape of every paginated list endpoint
(app/schemas/pagination.py, PaginatedResponse). -/
structure Paginated (α : Type) where
  items : List α
  total : Nat
  page : Nat
  per_page : Nat
  total_pages : Nat
  has_prev : Bool
  has_next : Bool
deriving Repr, DecidableEq

/-- Outcome of Pydantic validation of the raw pagination query values:
the Field bounds ge 1 on page and ge 1, le 100 on per_page reject anything
outside those ranges before the handler runs (the abstract BadRequest kind
of the design document). -/
inductive PaginationParse
  | validation_rejected
  | ok (params : PaginationParams)
deriving Repr, DecidableEq

/-- Pydantic validation of raw pagination query values. -/
def parse_pagination (page per_page : Int) : PaginationParse :=
  if page < 1 ∨ per_page < 1 ∨ per_page > 100 then .validation_rejected
  else .ok ⟨page.toNat, per_page.toNat⟩

/-- Offset computation shared verbatim by every list handler. -/
def pagination_offset (page per_page : Nat) : Nat := (page - 1) * per_page

/-- Total-pages computation shared verbatim by every list handler:
(total + per_page - 1) // per_page. -/
def total_pages_of (total per_page : Nat) : Nat := (total + per_page - 1) / per_page

/-- has_prev computation shared by every list handler. -/
def has_prev_of (page : Nat) : Bool := page > 1

/-- has_next computation shared by every list handler. -/
def has_next_of (page total_pages : Nat) : Bool := page < total_pages

/-- Builds the paginated response from the already sorted visible rows,
applying offset and limit exactly as the handlers do. -/
def paginate {α : Type} (rows : List α) (total : Nat) (pg : PaginationParams) :
    Paginated α :=
  ⟨(rows.drop (pagination_offset pg.page pg.per_page)).take pg.per_page,
   total, pg.page, pg.per_page, total_pages_of total pg.per_page,
   has_prev_of pg.page, has_next_of pg.page (total_pages_of total pg.per_page)⟩

/-- Updates the first row matched by the key, leaving every other row in
place.  This is how a mutation of the single object returned by a query
with first followed by commit acts on the table. -/
def update_first {α : Type} (key : α → Bool) (f : α → α) : List α → List α
  | [] => []
  | a :: l => if key a then f a :: l else a :: update_first key f l

/-- Password hashing is an external collaborator (app/core/security.py);
it is modelled as an opaque injective tagging function. -/
def get_password_hash (password : String) : String := "bcrypt$" ++ password

/-- Result of the external JWT decode (jose.jwt.decode in app/api/deps.py):
either some JWTError (malformed token, bad signature, expiry) or a decoded
payload whose sub entry may be absent. -/
inductive TokenDecode
  | jwt_error
  | payload (sub : Option String)
deriving Repr, DecidableEq

/-- Embedding of get_current_user (app/api/deps.py): every failure path
raises the one shared credentials_exception; success returns the user row
looked up by the integer subject. -/
def get_current_user (db : DB) (token : TokenDecode) : Except ApiError User :=
  match token with
  | .jwt_error => .error credentials_exception
  | .payload none => .error credentials_exception
  | .payload (some s) =>
    match s.toInt? with
    | none => .error credentials_exception
    | some uid =>
      match db.users.find? (fun u => u.user_id == uid) with
      | none => .error credentials_exception
      | some u => .ok u

/-- Embedding of get_current_admin (app/api/deps.py). -/
def get_current_admin (current_user : User) : Except ApiError User :=
  if current_user.role ≠ "admin" then
    .error ⟨403, "Admin privileges required"⟩
  else .ok current_user

/-- Embedding of register (app/api/v1/auth.py).  The stored role is the
Python expression role or user: the default applies exactly when the client
role is absent or the empty string, both falsy. -/
def register (db : DB) (user_in : UserCreate) : Except ApiError (User × DB) :=
  match db.users.find? (fun u => u.username == user_in.username) with
  | some _ => .error ⟨400, "Username already registered"⟩
  | none =>
    let role := match user_in.role with
      | none => "user"
      | some r => if r = "" then "user" else r
    let u : User :=
      ⟨db.next_user_id, user_in.username, get_password_hash user_in.password,
       user_in.nickname, role, db.load_time⟩
    .ok (u, { db with users := db.users ++ [u],
                      next_user_id := db.next_user_id + 1 })

/-- Embedding of create_topic (app/api/v1/topics.py); the admin requirement
is enforced by the get_current_admin dependency before the body runs. -/
def create_topic (db : DB) (topic_in : TopicCreate) : Except ApiError (Topic × DB) :=
  match db.topics.find? (fun t => t.name == topic_in.name) with
  | some _ => .error ⟨400, "Topic already exists"⟩
  | none =>
    let t : Topic := ⟨db.next_topic_id, topic_in.name, topic_in.description, db.load_time⟩
    .ok (t, { db with topics := db.topics ++ [t],
                      next_topic_id := db.next_topic_id + 1 })

/-- Response body of GET /topics/id/stats (app/schemas/topic.py).  The
average is kept as an exact rational; the source reports it as a float. -/
structure TopicStats where
  topic_id : Int
  avg_score : Option ℚ
  rating_count : Nat
deriving Repr, DecidableEq

/-- All Rating rows of one topic, in table order. -/
def topic_ratings (db : DB) (tid : Int) : List Rating :=
  db.ratings.filter (fun r => r.topic_id == tid)

/-- Embedding of get_topic_stats (app/api/v1/topics.py): 404 when the topic
is absent, otherwise the SQL aggregate AVG paired with COUNT over the
ratings of the topic, with AVG null exactly when there are no rows. -/
def get_topic_stats (db : DB) (topic_id : Int) : Except ApiError TopicStats :=
  match db.topics.find? (fun t => t.topic_id == topic_id) with
  | none => .error ⟨404, "Topic not found"⟩
  | some _ =>
    let rs := topic_ratings db topic_id
    let cnt := rs.length
    let avg : Option ℚ :=
      if cnt = 0 then none
      else some ((rs.map (fun r => (r.score : ℚ))).sum / (cnt : ℚ))
    .ok ⟨topic_id, avg, cnt⟩

/-- Embedding of rate_topic (app/api/v1/topics.py).  The pair result carries
the stored state after the request: on any failure the handler raises before
any write, so the state is returned unchanged.  Both timestamp columns of a
new rating receive the scalar default load_time, and the scalar onupdate
writes load_time again on the update path. -/
def rate_topic (db : DB) (topic_id : Int) (rating_in : RatingCreate)
    (current_user : User) : Except ApiError Rating × DB :=
  if topic_id ≠ rating_in.topic_id then
    (.error ⟨400, "Topic id mismatch"⟩, db)
  else
    match db.topics.find? (fun t => t.topic_id == topic_id) with
    | none => (.error ⟨404, "Topic not found"⟩, db)
    | some _ =>
      match db.ratings.find?
          (fun r => r.topic_id == topic_id && r.user_id == current_user.user_id) with
      | some r =>
        let r2 : Rating :=
          { r with score := rating_in.score, comment := rating_in.comment,
                   updated_at := db.load_time }
        let updated := update_first
          (fun x => x.topic_id == topic_id && x.user_id == current_user.user_id)
          (fun x => { x with score := rating_in.score, comment := rating_in.comment,
                             updated_at := db.load_time })
          db.ratings
        (.ok r2, { db with ratings := updated })
      | none =>
        let r : Rating :=
          ⟨db.next_rating_id, current_user.user_id, topic_id, rating_in.score,
           rating_in.comment, db.load_time, db.load_time⟩
        (.ok r, { db with ratings := db.ratings ++ [r],
                          next_rating_id := db.next_rating_id + 1 })

/-- Embedding of list_ratings (app/api/v1/topics.py): ratings of the topic
ordered by created_at descending, then offset and limit. -/
def list_ratings (db : DB) (topic_id : Int) (pg : PaginationParams) :
    Paginated Rating :=
  let visible := db.ratings.filter (fun r => r.topic_id == topic_id)
  let sorted := List.insertionSort
    (fun a b : Rating => b.created_at ≤ a.created_at) visible
  paginate sorted visible.length pg

/-- Embedding of create_post (app/api/v1/posts_comments_ratings.py).  The
now argument is the value of the per-insert callable datetime.utcnow used by
the created_at column; updated_at gets the scalar default load_time. -/
def create_post (db : DB) (now : Time) (post_in : PostCreate)
    (current_user : User) : Post × DB :=
  let p : Post :=
    ⟨db.next_post_id, current_user.user_id, post_in.title, post_in.content,
     false, now, db.load_time⟩
  (p, { db with posts := db.posts ++ [p], next_post_id := db.next_post_id + 1 })

/-- Embedding of list_posts: non-deleted posts ordered by created_at
descending, then offset and limit. -/
def list_posts (db : DB) (pg : PaginationParams) : Paginated Post :=
  let visible := db.posts.filter (fun p => p.is_deleted == false)
  let sorted := List.insertionSort
    (fun a b : Post => b.created_at ≤ a.created_at) visible
  paginate sorted visible.length pg

/-- Embedding of get_post: the query filters on the id and on the
soft-delete flag, so an absent and a soft-deleted post are both 404. -/
def get_post (db : DB) (post_id : Int) : Except ApiError Post :=
  match db.posts.find? (fun p => p.post_id == post_id && p.is_deleted == false) with
  | none => .error ⟨404, "Post not found"⟩
  | some p => .ok p

/-- The state change committed by a successful delete_post: the first row
with the id gets its flag set, and the scalar onupdate writes load_time into
updated_at. -/
def post_soft_delete (db : DB) (post_id : Int) : DB :=
  let updated := update_first (fun x => x.post_id == post_id)
    (fun x => { x with is_deleted := true, updated_at := db.load_time })
    db.posts
  { db with posts := updated }

/-- Embedding of delete_post: the fetch includes soft-deleted rows; 404 only
when no row exists, 403 unless the actor is the author or an admin; on
success the flag of the fetched row is set. -/
def delete_post (db : DB) (post_id : Int) (current_user : User) :
    Except ApiError DB :=
  match db.posts.find? (fun p => p.post_id == post_id) with
  | none => .error ⟨404, "Post not found"⟩
  | some p =>
    if current_user.role ≠ "admin" ∧ p.author_id ≠ current_user.user_id then
      .error ⟨403, "Not enough permissions"⟩
    else
      .ok (post_soft_delete db post_id)

/-- Embedding of create_comment: 404 when the target post is absent or
soft-deleted; the created_at column of Comment has the scalar default, so the
new row is stamped with load_time. -/
def create_comment (db : DB) (post_id : Int) (comment_in : CommentCreate)
    (current_user : User) : Except ApiError (Comment × DB) :=
  match db.posts.find? (fun p => p.post_id == post_id && p.is_deleted == false) with
  | none => .error ⟨404, "Post not found"⟩
  | some _ =>
    let c : Comment :=
      ⟨db.next_comment_id, post_id, current_user.user_id, comment_in.content,
       false, db.load_time⟩
    .ok (c, { db with comments := db.comments ++ [c],
                      next_comment_id := db.next_comment_id + 1 })

/-- The rows the list_comments query selects: non-deleted comments of the
post, in table order. -/
def visible_comments (db : DB) (post_id : Int) : List Comment :=
  db.comments.filter (fun c => c.post_id == post_id && c.is_deleted == false)

/-- Embedding of the items of a list_comments response.  The query asks the
engine to order by created_at ascending, but SQL leaves the order among rows
with equal keys undefined, so the handler constrains its response only up to
a key-sorted permutation of the selected rows, to which offset and limit are
applied.  (Every Comment row carries the identical scalar-default
created_at, so the ascending sort in fact constrains nothing.) -/
def list_comments_can_return (db : DB) (post_id : Int) (pg : PaginationParams)
    (items : List Comment) : Prop :=
  ∃ rows : List Comment, rows.Perm (visible_comments db post_id) ∧
    rows.Sorted (fun a b => a.created_at ≤ b.created_at) ∧
    items = (rows.drop (pagination_offset pg.page pg.per_page)).take pg.per_page

/-- The state change committed by a successful delete_comment. -/
def comment_soft_delete (db : DB) (comment_id : Int) : DB :=
  let updated := update_first (fun x => x.comment_id == comment_id)
    (fun x => { x with is_deleted := true })
    db.comments
  { db with comments := updated }

/-- Embedding of delete_comment: same shape as delete_post; the Comment
table has no updated_at column. -/
def delete_comment (db : DB) (comment_id : Int) (current_user : User) :
    Except ApiError DB :=
  match db.comments.find? (fun c => c.comment_id == comment_id) with
  | none => .error ⟨404, "Comment not found"⟩
  | some c =>
    if current_user.role ≠ "admin" ∧ c.author_id ≠ current_user.user_id then
      .error ⟨403, "Not enough permissions"⟩
    else
      .ok (comment_soft_delete db comment_id)

/-- Arithmetic mean of a list of integer scores, null on the empty list;
this is the wording of the design document, to be compared with the
aggregate computed by get_topic_stats. -/
def arith_mean (scores : List Int) : Option ℚ :=
  if scores.isEmpty then none
  else some ((scores.map (fun z => (Int.cast z : ℚ))).sum / (scores.length : ℚ))

/-- A registered ordinary user, used by concrete scenarios. -/
def user10 : User := ⟨1, "bob", "bcrypt$pw123456", "Bob", "user", 0⟩

/-- A registered admin user, used by concrete scenarios. -/
def user_admin : User := ⟨2, "root", "bcrypt$rootpw1", "Root", "admin", 0⟩

/-- State with one user and one topic and no ratings, imported at time 0. -/
def dbC1 : DB := ⟨0, [user10], [⟨1, "python", none, 0⟩], [], [], [], 2, 2, 1, 1, 1⟩

/-- State with two topics; topic 1 carries the ratings 5, 4 and 3 from three
distinct users, topic 2 carries none. -/
def db_stats : DB :=
  ⟨0, [], [⟨1, "python", none, 0⟩, ⟨2, "rust", none, 0⟩], [], [],
   [⟨1, 1, 1, 5, none, 0, 0⟩, ⟨2, 2, 1, 4, none, 0, 0⟩, ⟨3, 3, 1, 3, none, 0, 0⟩],
   1, 3, 1, 1, 4⟩

/-- State with one post and one comment, both authored by user 1. -/
def db_own : DB :=
  ⟨0, [user10, user_admin], [], [⟨1, 1, "title", "body", false, 3, 0⟩],
   [⟨1, 1, 1, "nice", false, 0⟩], [], 3, 1, 2, 2, 1⟩

/-- The state db_own after its post has been soft-deleted. -/
def db_own_deleted : DB :=
  ⟨0, [user10, user_admin], [], [⟨1, 1, "title", "body", true, 3, 0⟩],
   [⟨1, 1, 1, "nice", false, 0⟩], [], 3, 1, 2, 2, 1⟩

/-- State whose single post is already soft-deleted. -/
def db_deleted : DB :=
  ⟨0, [user10], [], [⟨1, 1, "title", "body", true, 3, 0⟩], [], [], 2, 1, 2, 1, 1⟩

/-- Completely empty state. -/
def db_empty : DB := ⟨0, [], [], [], [], [], 1, 1, 1, 1, 1⟩

/-- State with a single user whose identifier is 7. -/
def db_auth : DB :=
  ⟨0, [⟨7, "eve", "bcrypt$evepw12", "Eve", "user", 0⟩], [], [], [], [], 8, 1, 1, 1, 1⟩

/-- State with one user and no posts, start of the post-ordering scenario. -/
def db_posts_base : DB := ⟨0, [user10], [], [], [], [], 2, 1, 1, 1, 1⟩

/-- State with one user and one visible post, start of the comment-ordering
scenario. -/
def db_comments_base : DB :=
  ⟨0, [user10], [], [⟨1, 1, "hello", "world", false, 5, 0⟩], [], [], 2, 1, 2, 1, 1⟩

/-!  Helper lemmas shared by the claim theorems. -/

/-- The handlers compute total pages as (total + per_page - 1) // per_page;
for positive per_page this is the ceiling of total / per_page. -/
theorem total_pages_of_eq_ceil (total per_page : Nat) (h : 1 ≤ per_page) :
    total_pages_of total per_page = Nat.ceil ((total : ℚ) / (per_page : ℚ)) := by
  unfold total_pages_of
  rw [← Nat.ceilDiv_eq_add_pred_div]
  have hq : (0 : ℚ) < (per_page : ℚ) := by exact_mod_cast h
  refine le_antisymm ?_ ?_
  · rw [ceilDiv_le_iff_le_mul h, mul_comm]
    have h1 : (total : ℚ) / (per_page : ℚ) ≤ (Nat.ceil ((total : ℚ) / (per_page : ℚ)) : ℚ) :=
      Nat.le_ceil _
    have h2 : (total : ℚ) ≤ (Nat.ceil ((total : ℚ) / (per_page : ℚ)) : ℚ) * (per_page : ℚ) :=
      (div_le_iff₀ hq).1 h1
    exact_mod_cast h2
  · rw [Nat.ceil_le, div_le_iff₀ hq]
    have h4 : total ≤ per_page • (total ⌈/⌉ per_page) := le_smul_ceilDiv h
    rw [smul_eq_mul] at h4
    have h5 : (total : ℚ) ≤ (per_page : ℚ) * ((total ⌈/⌉ per_page : ℕ) : ℚ) := by
      exact_mod_cast h4
    linarith

/-- Decomposition of update_first around the row located by find?: the rows
before the first match are untouched and fail the key, the first match is
rewritten, the rest of the table is untouched. -/
theorem update_first_of_find? {α : Type} (key : α → Bool) (f : α → α)
    (l : List α) (a : α) (h : l.find? key = some a) :
    ∃ l1 l2, l = l1 ++ a :: l2 ∧ (∀ x ∈ l1, key x = false) ∧
      update_first key f l = l1 ++ f a :: l2 := by
  induction l with
  | nil => simp at h
  | cons b l ih =>
    by_cases hb : key b
    · rw [List.find?_cons_of_pos _ hb] at h
      obtain rfl : b = a := by injection h
      exact ⟨[], l, by simp, by simp, by simp [update_first, hb]⟩
    · rw [List.find?_cons_of_neg _ hb] at h
      obtain ⟨l1, l2, hl, hk, hu⟩ := ih h
      refine ⟨b :: l1, l2, by simp [hl], ?_, ?_⟩
      · intro x hx
        rcases List.mem_cons.1 hx with rfl | hx1
        · simpa using hb
        · exact hk x hx1
      · simp [update_first, hb, hu]

/-- The aggregate computed by get_topic_stats coincides with the arithmetic
mean of the score column, null exactly on the empty table slice. -/
theorem stats_avg_eq (rs : List Rating) :
    (if rs.length = 0 then (none : Option ℚ)
     else some ((rs.map (fun r => (r.score : ℚ))).sum / (rs.length : ℚ))) =
    arith_mean (rs.map (fun r => r.score)) := by
  cases rs with
  | nil => rfl
  | cons a l =>
    have h1 : (a :: l).length ≠ 0 := Nat.succ_ne_zero _
    rw [if_neg h1]
    unfold arith_mean
    have h3 : ((a :: l).map (fun r => r.score)).map (fun z : Int => (Int.cast z : ℚ)) =
        (a :: l).map (fun r => (r.score : ℚ)) := by
      rw [List.map_map]
      rfl
    have h2 : ((a :: l).map (fun r => r.score)).isEmpty = false := rfl
    rw [h2]
    simp only [Bool.false_eq_true, if_false, h3, List.length_map]

/-- On a found topic, get_topic_stats reports the arithmetic mean and the
row count of the score column of the ratings of the topic. -/
theorem get_topic_stats_found (db : DB) (tid : Int) (t : Topic)
    (h : db.topics.find? (fun x => x.topic_id == tid) = some t) :
    get_topic_stats db tid =
      .ok ⟨tid, arith_mean ((topic_ratings db tid).map (fun r => r.score)),
           (topic_ratings db tid).length⟩ := by
  have hred : get_topic_stats db tid =
      .ok ⟨tid,
        if (topic_ratings db tid).length = 0 then none
        else some (((topic_ratings db tid).map (fun r => (r.score : ℚ))).sum /
          ((topic_ratings db tid).length : ℚ)),
        (topic_ratings db tid).length⟩ := by
    unfold get_topic_stats
    rw [h]
  rw [hred, stats_avg_eq]

/-- C7: for every page at least 1, per_page between 1 and 100 and any total,
the pagination computation shared by every list endpoint yields
offset (page-1)*per_page, total_pages the ceiling of total divided by
per_page (hence 0 when total is 0, and then has_next is false),
has_prev exactly when page exceeds 1 and has_next exactly when page is below
total_pages; raw query values outside those ranges are rejected by the
schema validation, the abstract BadRequest of the design document. -/
theorem pagination_correct (page per_page total : Nat)
    (_hpage : 1 ≤ page) (hpp1 : 1 ≤ per_page) (_hpp2 : per_page ≤ 100) :
    pagination_offset page per_page = (page - 1) * per_page ∧
    total_pages_of total per_page = Nat.ceil ((total : ℚ) / (per_page : ℚ)) ∧
    (total = 0 → total_pages_of total per_page = 0 ∧
      has_next_of page (total_pages_of total per_page) = false) ∧
    (has_prev_of page = true ↔ 1 < page) ∧
    (has_next_of page (total_pages_of total per_page) = true ↔
      page < total_pages_of total per_page) ∧
    (∀ p pp : Int, (p < 1 ∨ pp < 1 ∨ 100 < pp) →
      parse_pagination p pp = .validation_rejected) ∧
    (∀ p pp : Int, 1 ≤ p → 1 ≤ pp → pp ≤ 100 →
      parse_pagination p pp = .ok ⟨p.toNat, pp.toNat⟩) := by
  have hzero : total = 0 → total_pages_of total per_page = 0 := by
    rintro rfl
    unfold total_pages_of
    exact Nat.div_eq_of_lt (by omega)
  refine ⟨rfl, total_pages_of_eq_ceil total per_page hpp1, ?_, ?_, ?_, ?_, ?_⟩
  · intro h0
    refine ⟨hzero h0, ?_⟩
    rw [hzero h0]
    simp [has_next_of]
  · simp [has_prev_of]
  · simp [has_next_of]
  · intro p pp hbad
    unfold parse_pagination
    rw [if_pos hbad]
  · intro p pp hp1 hpp1i hpp2i
    unfold parse_pagination
    rw [if_neg (by omega)]

/-- C7 witness at the example of the design document: page 3, per_page 20,
total 45. -/
theorem pagination_correct_witness :
    pagination_offset 3 20 = (3 - 1) * 20 ∧
    total_pages_of 45 20 = Nat.ceil ((45 : ℚ) / (20 : ℚ)) ∧
    ((45 : Nat) = 0 → total_pages_of 45 20 = 0 ∧
      has_next_of 3 (total_pages_of 45 20) = false) ∧
    (has_prev_of 3 = true ↔ 1 < 3) ∧
    (has_next_of 3 (total_pages_of 45 20) = true ↔ 3 < total_pages_of 45 20) ∧
    (∀ p pp : Int, (p < 1 ∨ pp < 1 ∨ 100 < pp) →
      parse_pagination p pp = .validation_rejected) ∧
    (∀ p pp : Int, 1 ≤ p → 1 ≤ pp → pp ≤ 100 →
      parse_pagination p pp = .ok ⟨p.toNat, pp.toNat⟩) :=
  pagination_correct 3 20 45 (by decide) (by decide) (by decide)

/-- The disjunctive description of all token validation failures of
get_current_user: JWT decode error (malformed, bad signature, expired),
missing subject, subject not an integer, or subject resolving to no stored
user. -/
def token_auth_fails (db : DB) (token : TokenDecode) : Prop :=
  token = .jwt_error ∨ token = .payload none ∨
  (∃ s, token = .payload (some s) ∧ s.toInt? = none) ∨
  (∃ s uid, token = .payload (some s) ∧ s.toInt? = some uid ∧
    db.users.find? (fun u => u.user_id == uid) = none)

/-- C8: get_current_user returns the one shared credentials_exception value
for every token validation failure and also when the subject matches no
stored user, so those failures are indistinguishable; on success it returns
the looked-up user.  The embedding is a pure read: the state is only an
input, never rebuilt, matching the write-free handler. -/
theorem get_current_user_uniform_error (db : DB) (token : TokenDecode) :
    (token_auth_fails db token →
      get_current_user db token = .error credentials_exception) ∧
    (∀ s uid u, token = .payload (some s) → s.toInt? = some uid →
      db.users.find? (fun x => x.user_id == uid) = some u →
      get_current_user db token = .ok u) := by
  constructor
  · rintro (rfl | rfl | ⟨s, rfl, hs⟩ | ⟨s, uid, rfl, hs, hu⟩)
    · rfl
    · rfl
    · simp [get_current_user, hs]
    · simp [get_current_user, hs, hu]
  · rintro s uid u rfl hs hu
    simp [get_current_user, hs, hu]

/-- C8 witness: a JWT decode failure and a successful lookup of user 7 on a
concrete state. -/
theorem get_current_user_uniform_error_witness :
    (token_auth_fails db_auth .jwt_error →
      get_current_user db_auth .jwt_error = .error credentials_exception) ∧
    (∀ s uid u, TokenDecode.jwt_error = .payload (some s) → s.toInt? = some uid →
      db_auth.users.find? (fun x => x.user_id == uid) = some u →
      get_current_user db_auth .jwt_error = .ok u) :=
  get_current_user_uniform_error db_auth .jwt_error

/-- C3: rate_topic fails with 400 when the body topic id disagrees with the
path topic id, fails with 404 when the topic does not exist, and every
failure leaves the stored state untouched. -/
theorem rate_topic_failure_no_write (db : DB) (tid : Int) (rin : RatingCreate)
    (u : User) :
    (rin.topic_id ≠ tid →
      rate_topic db tid rin u = (.error ⟨400, "Topic id mismatch"⟩, db)) ∧
    (rin.topic_id = tid → db.topics.find? (fun t => t.topic_id == tid) = none →
      rate_topic db tid rin u = (.error ⟨404, "Topic not found"⟩, db)) ∧
    (∀ e, (rate_topic db tid rin u).1 = .error e →
      (rate_topic db tid rin u).2 = db) := by
  refine ⟨?_, ?_, ?_⟩
  · intro hne
    unfold rate_topic
    rw [if_pos (Ne.symm hne)]
  · intro heq hnone
    unfold rate_topic
    rw [if_neg (by simp [heq]), hnone]
  · intro e
    unfold rate_topic
    by_cases hmis : tid ≠ rin.topic_id
    · rw [if_pos hmis]
      intro
      rfl
    · rw [if_neg hmis]
      cases htop : db.topics.find? (fun t => t.topic_id == tid) with
      | none => intro; rfl
      | some t =>
        cases hrat : db.ratings.find?
            (fun r => r.topic_id == tid && r.user_id == u.user_id) with
        | some r => intro hok; simp at hok
        | none => intro hok; simp at hok

/-- C3 witness: a mismatching body id and a missing topic on a concrete
state, each leaving the state unchanged. -/
theorem rate_topic_failure_no_write_witness :
    ((RatingCreate.mk 2 4 none).topic_id ≠ (1 : Int) →
      rate_topic db_empty 1 ⟨2, 4, none⟩ user10 =
        (.error ⟨400, "Topic id mismatch"⟩, db_empty)) ∧
    ((RatingCreate.mk 2 4 none).topic_id = (1 : Int) →
      db_empty.topics.find? (fun t => t.topic_id == (1 : Int)) = none →
      rate_topic db_empty 1 ⟨2, 4, none⟩ user10 =
        (.error ⟨404, "Topic not found"⟩, db_empty)) ∧
    (∀ e, (rate_topic db_empty 1 ⟨2, 4, none⟩ user10).1 = .error e →
      (rate_topic db_empty 1 ⟨2, 4, none⟩ user10).2 = db_empty) :=
  rate_topic_failure_no_write db_empty 1 ⟨2, 4, none⟩ user10

/-- C1: evaluation of rate_topic on a concrete state imported at time 0.
The created_at column of Rating is declared with the scalar default
datetime.now(UTC), evaluated once at module import, so the first call stores
created_at equal to the import constant, not the wall-clock time of the
call; indeed rate_topic takes no clock at all.  The evaluation also shows
the healthy parts of the claim: a second call updates score and comment in
place, preserves rating_id and created_at, and the table keeps one row. -/
theorem rate_topic_created_at_is_import_constant :
    dbC1.load_time = 0 ∧
    (rate_topic dbC1 1 ⟨1, 4, some "good"⟩ user10).1 =
      .ok ⟨1, 1, 1, 4, some "good", 0, 0⟩ ∧
    ((rate_topic dbC1 1 ⟨1, 4, some "good"⟩ user10).2).ratings =
      [⟨1, 1, 1, 4, some "good", 0, 0⟩] ∧
    (rate_topic ((rate_topic dbC1 1 ⟨1, 4, some "good"⟩ user10).2) 1
        ⟨1, 5, none⟩ user10).1 = .ok ⟨1, 1, 1, 5, none, 0, 0⟩ ∧
    ((rate_topic ((rate_topic dbC1 1 ⟨1, 4, some "good"⟩ user10).2) 1
        ⟨1, 5, none⟩ user10).2).ratings = [⟨1, 1, 1, 5, none, 0, 0⟩] :=
  ⟨rfl, rfl, rfl, rfl, rfl⟩

/-- C4: register stores a non-empty client-supplied role verbatim; the
default role applies exactly when the client role is absent or empty.  Any
user stored with role admin passes get_current_admin, and once past that
gate create_topic succeeds for any fresh name.  The register handler itself
requires no authentication: it takes no token and no current user. -/
theorem register_persists_role (db : DB) (username nickname password r : String)
    (hfresh : db.users.find? (fun u => u.username == username) = none)
    (hr : r ≠ "") :
    (∀ u db2, register db ⟨username, nickname, password, some r⟩ = .ok (u, db2) →
      u.role = r ∧ u ∈ db2.users) ∧
    (∃ u db2, register db ⟨username, nickname, password, some r⟩ = .ok (u, db2)) ∧
    (∀ u db2, register db ⟨username, nickname, password, none⟩ = .ok (u, db2) →
      u.role = "user") ∧
    (∀ u db2, register db ⟨username, nickname, password, some ""⟩ = .ok (u, db2) →
      u.role = "user") ∧
    (∀ u : User, u.role = "admin" → get_current_admin u = .ok u) ∧
    (∀ (db2 : DB) (tin : TopicCreate),
      db2.topics.find? (fun t => t.name == tin.name) = none →
      ∃ t db3, create_topic db2 tin = .ok (t, db3)) := by
  refine ⟨?_, ?_, ?_, ?_, ?_, ?_⟩
  · intro u db2 h
    unfold register at h
    rw [hfresh] at h
    simp only [Except.ok.injEq, Prod.mk.injEq] at h
    obtain ⟨hu, hdb⟩ := h
    subst hu
    subst hdb
    refine ⟨by simp [hr], by simp⟩
  · unfold register
    rw [hfresh]
    exact ⟨_, _, rfl⟩
  · intro u db2 h
    unfold register at h
    rw [hfresh] at h
    simp only [Except.ok.injEq, Prod.mk.injEq] at h
    obtain ⟨hu, hdb⟩ := h
    subst hu
    rfl
  · intro u db2 h
    unfold register at h
    rw [hfresh] at h
    simp only [Except.ok.injEq, Prod.mk.injEq] at h
    obtain ⟨hu, hdb⟩ := h
    subst hu
    rfl
  · intro u hrole
    unfold get_current_admin
    rw [if_neg (by simp [hrole])]
  · intro db2 tin hname
    unfold create_topic
    rw [hname]
    exact ⟨_, _, rfl⟩

/-- C4 witness: registering the username alice with role admin on the empty
state. -/
theorem register_persists_role_witness :
    (∀ u db2, register db_empty ⟨"alice", "Alice", "secret123", some "admin"⟩ =
        .ok (u, db2) → u.role = "admin" ∧ u ∈ db2.users) ∧
    (∃ u db2, register db_empty ⟨"alice", "Alice", "secret123", some "admin"⟩ =
        .ok (u, db2)) ∧
    (∀ u db2, register db_empty ⟨"alice", "Alice", "secret123", none⟩ =
        .ok (u, db2) → u.role = "user") ∧
    (∀ u db2, register db_empty ⟨"alice", "Alice", "secret123", some ""⟩ =
        .ok (u, db2) → u.role = "user") ∧
    (∀ u : User, u.role = "admin" → get_current_admin u = .ok u) ∧
    (∀ (db2 : DB) (tin : TopicCreate),
      db2.topics.find? (fun t => t.name == tin.name) = none →
      ∃ t db3, create_topic db2 tin = .ok (t, db3)) :=
  register_persists_role db_empty "alice" "Alice" "secret123" "admin" rfl
    (by decide)

/-- C2: get_topic_stats is 404 exactly when the topic is absent; otherwise
it reports the number of rating rows of the topic and their arithmetic mean,
null exactly when the count is 0; on the concrete state with ratings 5, 4
and 3 it reports mean 4 and count 3, and on a topic with no ratings it
reports null and count 0. -/
theorem get_topic_stats_correct :
    (∀ (db : DB) (tid : Int), db.topics.find? (fun t => t.topic_id == tid) = none →
      get_topic_stats db tid = .error ⟨404, "Topic not found"⟩) ∧
    (∀ (db : DB) (tid : Int) (t : Topic),
      db.topics.find? (fun x => x.topic_id == tid) = some t →
      get_topic_stats db tid =
        .ok ⟨tid, arith_mean ((topic_ratings db tid).map (fun r => r.score)),
             (topic_ratings db tid).length⟩) ∧
    (∀ scores : List Int, arith_mean scores = none ↔ scores.length = 0) ∧
    get_topic_stats db_stats 1 = .ok ⟨1, some 4, 3⟩ ∧
    get_topic_stats db_stats 2 = .ok ⟨2, none, 0⟩ ∧
    get_topic_stats db_stats 3 = .error ⟨404, "Topic not found"⟩ := by
  refine ⟨?_, ?_, ?_, ?_, ?_, ?_⟩
  · intro db tid h
    unfold get_topic_stats
    rw [h]
  · intro db tid t h
    exact get_topic_stats_found db tid t h
  · intro scores
    unfold arith_mean
    by_cases hs : scores = [] <;> simp [hs, List.length_eq_zero]
  · rw [get_topic_stats_found db_stats 1 ⟨1, "python", none, 0⟩ (by decide)]
    have hrt : topic_ratings db_stats 1 =
        [⟨1, 1, 1, 5, none, 0, 0⟩, ⟨2, 2, 1, 4, none, 0, 0⟩,
         ⟨3, 3, 1, 3, none, 0, 0⟩] := by decide
    rw [hrt]
    norm_num [arith_mean]
  · rw [get_topic_stats_found db_stats 2 ⟨2, "rust", none, 0⟩ (by decide)]
    have hrt : topic_ratings db_stats 2 = [] := by decide
    rw [hrt]
    rfl
  · have h : db_stats.topics.find? (fun t => t.topic_id == (3 : Int)) = none := by
      decide
    unfold get_topic_stats
    rw [h]

/-- C2 witness: the topic with no ratings on the concrete state. -/
theorem get_topic_stats_correct_witness :
    get_topic_stats db_stats 2 =
      .ok ⟨2, arith_mean ((topic_ratings db_stats 2).map (fun r => r.score)),
           (topic_ratings db_stats 2).length⟩ :=
  get_topic_stats_correct.2.1 db_stats 2 ⟨2, "rust", none, 0⟩ rfl

/-- C5: for an existing post or comment row, deletion fails with 403 exactly
when the actor is neither the author nor an admin, and succeeds whenever the
actor is the author or has role admin. -/
theorem delete_ownership (db : DB) (actor : User) :
    (∀ (pid : Int) (p : Post), db.posts.find? (fun x => x.post_id == pid) = some p →
      ((delete_post db pid actor = .error ⟨403, "Not enough permissions"⟩ ↔
        (actor.role ≠ "admin" ∧ p.author_id ≠ actor.user_id)) ∧
       ((actor.role = "admin" ∨ p.author_id = actor.user_id) →
        ∃ db2, delete_post db pid actor = .ok db2))) ∧
    (∀ (cid : Int) (c : Comment),
      db.comments.find? (fun x => x.comment_id == cid) = some c →
      ((delete_comment db cid actor = .error ⟨403, "Not enough permissions"⟩ ↔
        (actor.role ≠ "admin" ∧ c.author_id ≠ actor.user_id)) ∧
       ((actor.role = "admin" ∨ c.author_id = actor.user_id) →
        ∃ db2, delete_comment db cid actor = .ok db2))) := by
  constructor
  · intro pid p hp
    have hred : delete_post db pid actor =
        if actor.role ≠ "admin" ∧ p.author_id ≠ actor.user_id then
          .error ⟨403, "Not enough permissions"⟩
        else .ok (post_soft_delete db pid) := by
      unfold delete_post
      rw [hp]
    rw [hred]
    by_cases hc : actor.role ≠ "admin" ∧ p.author_id ≠ actor.user_id
    · rw [if_pos hc]
      refine ⟨by simp [hc], ?_⟩
      rintro (h | h)
      · exact absurd h hc.1
      · exact absurd h hc.2
    · rw [if_neg hc]
      exact ⟨by simp [hc], fun _ => ⟨_, rfl⟩⟩
  · intro cid c hc0
    have hred : delete_comment db cid actor =
        if actor.role ≠ "admin" ∧ c.author_id ≠ actor.user_id then
          .error ⟨403, "Not enough permissions"⟩
        else .ok (comment_soft_delete db cid) := by
      unfold delete_comment
      rw [hc0]
    rw [hred]
    by_cases hc : actor.role ≠ "admin" ∧ c.author_id ≠ actor.user_id
    · rw [if_pos hc]
      refine ⟨by simp [hc], ?_⟩
      rintro (h | h)
      · exact absurd h hc.1
      · exact absurd h hc.2
    · rw [if_neg hc]
      exact ⟨by simp [hc], fun _ => ⟨_, rfl⟩⟩

/-- C5 witness: the admin deletes a post it did not author on the concrete
state. -/
theorem delete_ownership_witness :
    (delete_post db_own 1 user_admin = .error ⟨403, "Not enough permissions"⟩ ↔
      (user_admin.role ≠ "admin" ∧
        (Post.mk 1 1 "title" "body" false 3 0).author_id ≠ user_admin.user_id)) ∧
    ((user_admin.role = "admin" ∨
        (Post.mk 1 1 "title" "body" false 3 0).author_id = user_admin.user_id) →
      ∃ db2, delete_post db_own 1 user_admin = .ok db2) :=
  (delete_ownership db_own user_admin).1 1 ⟨1, 1, "title", "body", false, 3, 0⟩ rfl

/-- C9: for an authorized actor, delete_post on an already soft-deleted row
succeeds silently and leaves the state literally unchanged, because the
handler refetches including deleted rows and sets the flag without checking
it; 404 arises only when no row with the id exists at all. -/
theorem delete_post_idempotent :
    (∀ (db : DB) (pid : Int) (actor : User) (p : Post),
      db.posts.find? (fun x => x.post_id == pid) = some p →
      p.is_deleted = true → p.updated_at = db.load_time →
      (actor.role = "admin" ∨ p.author_id = actor.user_id) →
      delete_post db pid actor = .ok db) ∧
    (∀ (db : DB) (pid : Int) (actor : User),
      delete_post db pid actor = .error ⟨404, "Post not found"⟩ →
      db.posts.find? (fun x => x.post_id == pid) = none) := by
  constructor
  · intro db pid actor p hp hdel hupd hauth
    have hred : delete_post db pid actor =
        if actor.role ≠ "admin" ∧ p.author_id ≠ actor.user_id then
          .error ⟨403, "Not enough permissions"⟩
        else .ok (post_soft_delete db pid) := by
      unfold delete_post
      rw [hp]
    rw [hred, if_neg (by tauto)]
    obtain ⟨l1, l2, hl, hk, hu⟩ := update_first_of_find? (fun x => x.post_id == pid)
      (fun x => { x with is_deleted := true, updated_at := db.load_time }) db.posts p hp
    have hfp : ({ p with is_deleted := true, updated_at := db.load_time } : Post) = p := by
      obtain ⟨a, b, c, d, e, f, g⟩ := p
      simp only at hdel hupd
      rw [hdel, hupd]
    rw [hfp] at hu
    unfold post_soft_delete
    rw [hu, ← hl]
  · intro db pid actor h
    cases hfind : db.posts.find? (fun x => x.post_id == pid) with
    | none => rfl
    | some p =>
      have hred : delete_post db pid actor =
          if actor.role ≠ "admin" ∧ p.author_id ≠ actor.user_id then
            .error ⟨403, "Not enough permissions"⟩
          else .ok (post_soft_delete db pid) := by
        unfold delete_post
        rw [hfind]
      rw [hred] at h
      by_cases hc : actor.role ≠ "admin" ∧ p.author_id ≠ actor.user_id
      · rw [if_pos hc] at h
        exact absurd h (by decide)
      · rw [if_neg hc] at h
        exact Except.noConfusion h

/-- C9 witness: the author re-deletes the already deleted post of the
concrete state and the state is returned unchanged. -/
theorem delete_post_idempotent_witness :
    delete_post db_deleted 1 user10 = .ok db_deleted :=
  delete_post_idempotent.1 db_deleted 1 user10 ⟨1, 1, "title", "body", true, 3, 0⟩
    rfl rfl rfl (Or.inr rfl)

/-- C6: after a successful delete_post of the row p, a direct fetch of the
id is 404 and no listed page contains the id, yet the table keeps a row with
the id: the row count is unchanged, the row reappears with only its
soft-delete flag flipped, and every other row is untouched.  The pairwise
hypothesis is the primary-key uniqueness of post_id; the updated_at
hypothesis is the invariant that the column always holds the scalar default
load_time, which the scalar onupdate rewrites unchanged. -/
theorem delete_post_soft_delete (db : DB) (pid : Int) (actor : User) (p : Post)
    (db2 : DB)
    (hids : db.posts.Pairwise (fun a b => a.post_id ≠ b.post_id))
    (hp : db.posts.find? (fun x => x.post_id == pid) = some p)
    (hupd : p.updated_at = db.load_time)
    (hdel : delete_post db pid actor = .ok db2) :
    get_post db2 pid = .error ⟨404, "Post not found"⟩ ∧
    (∀ pg : PaginationParams, ∀ q ∈ (list_posts db2 pg).items, q.post_id ≠ pid) ∧
    db2.posts.length = db.posts.length ∧
    { p with is_deleted := true } ∈ db2.posts ∧
    (∀ q ∈ db.posts, q.post_id ≠ pid → q ∈ db2.posts) := by
  have hred : delete_post db pid actor =
      if actor.role ≠ "admin" ∧ p.author_id ≠ actor.user_id then
        .error ⟨403, "Not enough permissions"⟩
      else .ok (post_soft_delete db pid) := by
    unfold delete_post
    rw [hp]
  rw [hred] at hdel
  by_cases hc : actor.role ≠ "admin" ∧ p.author_id ≠ actor.user_id
  · rw [if_pos hc] at hdel
    exact Except.noConfusion hdel
  rw [if_neg hc] at hdel
  have hdb2 : db2 = post_soft_delete db pid := (Except.ok.inj hdel).symm
  subst hdb2
  obtain ⟨l1, l2, hl, hk1, hu⟩ := update_first_of_find? (fun x => x.post_id == pid)
    (fun x => { x with is_deleted := true, updated_at := db.load_time }) db.posts p hp
  have hpid : p.post_id = pid := by
    have := List.find?_some hp
    simpa using this
  have hposts2 : (post_soft_delete db pid).posts =
      l1 ++ { p with is_deleted := true, updated_at := db.load_time } :: l2 := hu
  have hl1 : ∀ x ∈ l1, x.post_id ≠ pid := by
    intro x hx
    have := hk1 x hx
    simpa using this
  have hl2 : ∀ x ∈ l2, x.post_id ≠ pid := by
    rw [hl] at hids
    intro x hx
    have hpair := (List.pairwise_append.1 hids).2.1
    have hne := (List.pairwise_cons.1 hpair).1 x hx
    rw [hpid] at hne
    exact Ne.symm hne
  refine ⟨?_, ?_, ?_, ?_, ?_⟩
  · have hnone : (post_soft_delete db pid).posts.find?
        (fun x => x.post_id == pid && x.is_deleted == false) = none := by
      rw [List.find?_eq_none]
      intro x hx
      rw [hposts2] at hx
      rcases List.mem_append.1 hx with hx1 | hx2
      · have := hl1 x hx1
        simp [this]
      · rcases List.mem_cons.1 hx2 with rfl | hx3
        · simp
        · have := hl2 x hx3
          simp [this]
    unfold get_post
    rw [hnone]
  · intro pg q hq
    simp only [list_posts, paginate] at hq
    have hq3 := List.take_subset _ _ hq
    have hq4 := List.drop_subset _ _ hq3
    rw [List.mem_insertionSort] at hq4
    obtain ⟨hqmem, hqflag⟩ := List.mem_filter.1 hq4
    intro hqeq
    rw [hposts2] at hqmem
    rcases List.mem_append.1 hqmem with h1 | h2
    · exact hl1 q h1 hqeq
    · rcases List.mem_cons.1 h2 with rfl | h3
      · simp at hqflag
      · exact hl2 q h3 hqeq
  · rw [hposts2, hl]
    simp
  · rw [hposts2, ← hupd]
    exact List.mem_append_right _ (List.mem_cons_self _ _)
  · intro q hq hqpid
    rw [hl] at hq
    rw [hposts2]
    rcases List.mem_append.1 hq with h1 | h2
    · exact List.mem_append_left _ h1
    · rcases List.mem_cons.1 h2 with rfl | h3
      · exact absurd hpid hqpid
      · exact List.mem_append_right _ (List.mem_cons_of_mem _ h3)

/-- C6 witness: the author deletes the single post of the concrete state;
the resulting state keeps the row with the flag set. -/
theorem delete_post_soft_delete_witness :
    get_post db_own_deleted 1 = .error ⟨404, "Post not found"⟩ ∧
    (∀ pg : PaginationParams, ∀ q ∈ (list_posts db_own_deleted pg).items,
      q.post_id ≠ (1 : Int)) ∧
    db_own_deleted.posts.length = db_own.posts.length ∧
    ({ (⟨1, 1, "title", "body", false, 3, 0⟩ : Post) with is_deleted := true } ∈
      db_own_deleted.posts) ∧
    (∀ q ∈ db_own.posts, q.post_id ≠ (1 : Int) → q ∈ db_own_deleted.posts) :=
  delete_post_soft_delete db_own 1 user10 ⟨1, 1, "title", "body", false, 3, 0⟩
    db_own_deleted (by decide) rfl rfl (by decide)

/-- C10 (code bug): the posts half holds — Post.created_at uses the
per-insert callable, so inserting P1 at time 3 and then P2 at time 7 makes
list_posts return P2 before P1 — but the comments half is not guaranteed by
the code.  Every Comment row receives the identical scalar-default
created_at, the import-time constant already recorded for C1, so ordering
by created_at ascending compares equal keys and leaves the relative order
of C1 and C2 undefined, against the stated conversational order.  The
evaluation inserts C1 and then C2 on one post, shows their timestamps
coincide, and shows that both response orders are admissible results of the
query. -/
theorem list_comments_order_not_guaranteed :
    ((list_posts (create_post (create_post db_posts_base 3 ⟨"P1", "b1"⟩ user10).2
        7 ⟨"P2", "b2"⟩ user10).2 ⟨1, 20⟩).items =
      [(create_post (create_post db_posts_base 3 ⟨"P1", "b1"⟩ user10).2
          7 ⟨"P2", "b2"⟩ user10).1,
       (create_post db_posts_base 3 ⟨"P1", "b1"⟩ user10).1]) ∧
    (∃ c1 db1 c2 db2,
      create_comment db_comments_base 1 ⟨"C1"⟩ user10 = .ok (c1, db1) ∧
      create_comment db1 1 ⟨"C2"⟩ user10 = .ok (c2, db2) ∧
      c1.created_at = c2.created_at ∧
      list_comments_can_return db2 1 ⟨1, 20⟩ [c1, c2] ∧
      list_comments_can_return db2 1 ⟨1, 20⟩ [c2, c1]) := by
  constructor
  · decide
  · refine ⟨⟨1, 1, 1, "C1", false, 0⟩,
      ⟨0, [user10], [], [⟨1, 1, "hello", "world", false, 5, 0⟩],
       [⟨1, 1, 1, "C1", false, 0⟩], [], 2, 1, 2, 2, 1⟩,
      ⟨2, 1, 1, "C2", false, 0⟩,
      ⟨0, [user10], [], [⟨1, 1, "hello", "world", false, 5, 0⟩],
       [⟨1, 1, 1, "C1", false, 0⟩, ⟨2, 1, 1, "C2", false, 0⟩], [], 2, 1, 2, 3, 1⟩,
      ?_, ?_, rfl, ?_, ?_⟩
    · decide
    · decide
    · exact ⟨[⟨1, 1, 1, "C1", false, 0⟩, ⟨2, 1, 1, "C2", false, 0⟩],
        by decide, by decide, rfl⟩
    · exact ⟨[⟨2, 1, 1, "C2", false, 0⟩, ⟨1, 1, 1, "C1", false, 0⟩],
        by decide, by decide, rfl⟩

end ScoreTalk
